import Mathlib

/-!
A shallow embedding of the LoggingLink mock service
(`mockgcp/mocklogging/logginglink.go`, two near-identical copies of the
name codec and one `configService` / one `linkService` handler set) and of
the LoggingLink proto mapper (`LoggingLinkSpec_FromProto` /
`LoggingLinkSpec_ToProto` and the `BigQueryDataset` sub-mapper).

Modelling conventions:
* Go strings are Lean `String`s; `strings.Split(name, "/")` is embedded as
  the character-level function `goSplit` below, which agrees with Go's
  semantics for a one-character separator (it produces empty tokens and
  maps the empty string to `[""]`).
* Proto pointer fields are `Option`; the nil-safe generated getters are
  embedded as `Option` eliminations returning the zero value.
* A Go runtime panic (out-of-range index, nil-pointer dereference) is an
  explicit outcome: `RpcResult.panics` for handlers, `Option.none` for the
  `String()` renderer.
* gRPC `status.Errorf` errors are the `StatusError` inductive.
* The keyed storage collaborator, the project resolver, and the `direct.*`
  mapping helpers are not part of the excerpt; they are modelled from the
  spec, and each such definition carries a doc comment saying so.
-/

namespace MockLogging

/-- Lifecycle state enum of the logging protos: `LIFECYCLE_STATE_UNSPECIFIED`,
`ACTIVE`, and (as a representative further value, the enum being extensible)
`DELETE_REQUESTED`. -/
inductive LifecycleState where
  | unspecified
  | active
  | deleteRequested
deriving DecidableEq

/-- A `timestamppb.Timestamp` value. -/
structure Timestamp where
  seconds : Int
  nanos : Int
deriving DecidableEq

/-- The fields of `projects.ProjectData` used by this file (`ID`, plus the
numeric id carried along by the resolver). -/
structure ProjectData where
  id : String
  number : Int
deriving DecidableEq

/-- The `pb.LoggingLink` record: the fields this excerpt reads or writes
(`Name`, `Description`, `CreateTime`, `UpdateTime`, `LifecycleState`). -/
structure LoggingLink where
  name : String
  description : String
  createTime : Option Timestamp
  updateTime : Option Timestamp
  lifecycleState : LifecycleState
deriving DecidableEq

/-- The `pb.BigQueryDataset` wire message (one field, `DatasetId`). -/
structure BigQueryDatasetPb where
  datasetId : String
deriving DecidableEq

/-- The `pb.Link` wire message: `Name`, `Description`, `CreateTime`,
`LifecycleState`, `BigqueryDataset` (the fields the excerpt touches). -/
structure Link where
  name : String
  description : String
  createTime : Option Timestamp
  lifecycleState : LifecycleState
  bigqueryDataset : Option BigQueryDatasetPb
deriving DecidableEq

/-- The `pb.LogBucket` fields written by `createLinkDefaultObjects`. -/
structure LogBucket where
  name : String
  description : String
  lifecycleState : LifecycleState
  retentionDays : Int
deriving DecidableEq

/-- gRPC status errors produced in this excerpt. -/
inductive StatusError where
  | invalidArgument (msg : String)
  | notFound (msg : String)
  | alreadyExists (msg : String)
deriving DecidableEq

/-- Outcome of a Go function that can return a value, return an error, or
panic at runtime (out-of-range index or nil-pointer dereference). -/
inductive RpcResult (α : Type) where
  | ok (value : α)
  | err (e : StatusError)
  | panics
deriving DecidableEq

/-- The `loggingLinkName` identity struct.  The source comment says only one
of project/folder/organization/billingAccount should be set.  `project` is a
pointer in Go, hence `Option` here. -/
structure loggingLinkName where
  project : Option ProjectData
  folder : String
  organization : String
  billingAccount : String
  location : String
  BucketName : String
  LinkName : String
deriving DecidableEq

/-- Character-level worker for `goSplit`. -/
def goSplitAux (cs : List Char) (acc : List Char) : List String :=
  match cs, acc with
  | [], acc => [String.mk acc.reverse]
  | c :: rest, acc =>
    if c = '/' then String.mk acc.reverse :: goSplitAux rest []
    else goSplitAux rest (c :: acc)

/-- Embedding of Go's `strings.Split(s, "/")`: split on every occurrence of
the one-character separator, keeping empty tokens; the empty string splits
to `[""]`. -/
def goSplit (s : String) : List String :=
  goSplitAux s.data []

/-- The `MockService` state the name codec needs: the projects known to the
`s.Projects` resolver, keyed by project id. -/
structure MockService where
  projects : List (String × ProjectData)
deriving DecidableEq

/-- First-match lookup in an association list (newest binding first). -/
def storeLookup {α : Type} (m : List (String × α)) (k : String) : Option α :=
  match m with
  | [] => none
  | (k2, v) :: rest => if k2 = k then some v else storeLookup rest k

/-- Modelled from the spec: the project-lookup collaborator
(`s.Projects.GetProjectByID`, from the `common/projects` package, absent
from the excerpt) resolves a project id to a live project record and "may
itself fail with NotFound". -/
def GetProjectByID (s : MockService) (id : String) : Except StatusError ProjectData :=
  match storeLookup s.projects id with
  | some p => Except.ok p
  | none => Except.error (StatusError.notFound ("project \"" ++ id ++ "\" not found"))

/-- Embedding of `parseLoggingLinkName` (the two copies in the source are
token-for-token identical).  Note that in the source the `organizations`
and `billingAccounts` branches test `len(tokens) == 6` and then read
`tokens[6]` (and their bodies read `tokens[7]`): under the length-6 guard
that read is out of range, so when the three literal keyword tests before
it succeed Go panics, and the branch bodies are unreachable.  An 8-token
`organizations/...` or `billingAccounts/...` path fails every guard and
falls to the `InvalidArgument` case. -/
def parseLoggingLinkName (s : MockService) (name : String) : RpcResult loggingLinkName :=
  let tokens := goSplit name
  if tokens.length = 8 ∧ tokens.getD 0 "" = "projects" ∧ tokens.getD 2 "" = "locations" ∧
      tokens.getD 4 "" = "buckets" ∧ tokens.getD 6 "" = "links" then
    match GetProjectByID s (tokens.getD 1 "") with
    | Except.error e => RpcResult.err e
    | Except.ok project =>
      RpcResult.ok
        { project := some project
          folder := ""
          organization := ""
          billingAccount := ""
          location := tokens.getD 3 ""
          BucketName := tokens.getD 5 ""
          LinkName := tokens.getD 7 "" }
  else if tokens.length = 8 ∧ tokens.getD 0 "" = "folders" ∧ tokens.getD 2 "" = "locations" ∧
      tokens.getD 4 "" = "buckets" ∧ tokens.getD 6 "" = "links" then
    RpcResult.ok
      { project := none
        folder := tokens.getD 1 ""
        organization := ""
        billingAccount := ""
        location := tokens.getD 3 ""
        BucketName := tokens.getD 5 ""
        LinkName := tokens.getD 7 "" }
  else if tokens.length = 6 ∧ tokens.getD 0 "" = "organizations" ∧
      tokens.getD 2 "" = "locations" ∧ tokens.getD 4 "" = "buckets" then
    RpcResult.panics
  else if tokens.length = 6 ∧ tokens.getD 0 "" = "billingAccounts" ∧
      tokens.getD 2 "" = "locations" ∧ tokens.getD 4 "" = "buckets" then
    RpcResult.panics
  else
    RpcResult.err (StatusError.invalidArgument ("name \"" ++ name ++ "\" is not valid"))

/-- Embedding of `(*loggingLinkName).String()`.  The final branch
dereferences `n.project.ID`; when `project` is nil Go panics, modelled as
`none`. -/
def loggingLinkNameString (n : loggingLinkName) : Option String :=
  if n.organization ≠ "" then
    some ("organizations/" ++ n.organization ++ "/locations/" ++ n.location ++
      "/buckets/" ++ n.BucketName ++ "/links/" ++ n.LinkName)
  else if n.folder ≠ "" then
    some ("folders/" ++ n.folder ++ "/locations/" ++ n.location ++
      "/buckets/" ++ n.BucketName ++ "/links/" ++ n.LinkName)
  else if n.billingAccount ≠ "" then
    some ("billingAccounts/" ++ n.billingAccount ++ "/locations/" ++ n.location ++
      "/buckets/" ++ n.BucketName ++ "/links/" ++ n.LinkName)
  else
    match n.project with
    | some p =>
      some ("projects/" ++ p.id ++ "/locations/" ++ n.location ++
        "/buckets/" ++ n.BucketName ++ "/links/" ++ n.LinkName)
    | none => none

/-- The mutable state behind the storage collaborator: one keyed store per
record kind (the stores are keyed by fully-qualified name). -/
structure MockState where
  logBuckets : List (String × LogBucket)
  loggingLinks : List (String × LoggingLink)
  links : List (String × Link)
deriving DecidableEq

/-- Modelled from the spec: the generic object store's `Get` — the record
under the key, or `NotFound`. -/
def storageGet {α : Type} (m : List (String × α)) (k : String) : Except StatusError α :=
  match storeLookup m k with
  | some v => Except.ok v
  | none => Except.error (StatusError.notFound ("resource not found: " ++ k))

/-- Modelled from the spec: the generic object store's `Create` —
`AlreadyExists` on a duplicate key, otherwise the store extended with the
new binding (newest binding first). -/
def storageCreate {α : Type} (m : List (String × α)) (k : String) (v : α) :
    Except StatusError (List (String × α)) :=
  match storeLookup m k with
  | some _ => Except.error (StatusError.alreadyExists ("already exists: " ++ k))
  | none => Except.ok ((k, v) :: m)

/-- Modelled from the spec: the generic object store's `Update` —
`NotFound` when the key is absent, otherwise the store with the new binding
shadowing the old one. -/
def storageUpdate {α : Type} (m : List (String × α)) (k : String) (v : α) :
    Except StatusError (List (String × α)) :=
  match storeLookup m k with
  | some _ => Except.ok ((k, v) :: m)
  | none => Except.error (StatusError.notFound ("resource not found: " ++ k))

/-- Modelled from the spec: `createBucketIfNotExists` (defined in the
LogBucket file, absent from the excerpt) is an idempotent
create-if-not-exists keyed by the bucket's name. -/
def createBucketIfNotExists (st : MockState) (bucket : LogBucket) : MockState :=
  match storeLookup st.logBuckets bucket.name with
  | some _ => st
  | none => { st with logBuckets := (bucket.name, bucket) :: st.logBuckets }

/-- Embedding of `createLinkDefaultObjects`: builds the default bucket
record and ensures it exists.  The bucket name is only filled in for the
folder parent kind, exactly as in the source. -/
def createLinkDefaultObjects (st : MockState) (name : loggingLinkName) : MockState :=
  let bucket : LogBucket :=
    { name := ""
      description := "Default bucket"
      lifecycleState := LifecycleState.active
      retentionDays := 30 }
  let bucket :=
    if name.folder ≠ "" then
      { bucket with name := "folders/" ++ name.folder ++ "/locations/global/buckets/_Default" }
    else bucket
  createBucketIfNotExists st bucket

/-- Embedding of `(*configService).populateDefaultsForLoggingLink`. -/
def populateDefaultsForLoggingLink (obj : LoggingLink) : LoggingLink :=
  if obj.lifecycleState = LifecycleState.unspecified then
    { obj with lifecycleState := LifecycleState.active }
  else obj

/-- Modelled from the spec: `populateDefaultsForLogBucket` lives in the
LogBucket file, absent from the excerpt; per the spec, creation "applies
default population (unset lifecycle state becomes `ACTIVE`)".  It is the
defaulter `CreateLoggingLink` actually calls on the new record. -/
def populateDefaultsForLogBucket (obj : LoggingLink) : LoggingLink :=
  if obj.lifecycleState = LifecycleState.unspecified then
    { obj with lifecycleState := LifecycleState.active }
  else obj

/-- The `pb.GetLoggingLinkRequest` fields used. -/
structure GetLoggingLinkRequest where
  name : String
deriving DecidableEq

/-- The `pb.CreateLoggingLinkRequest` fields used.  `loggingLink` is a
pointer field. -/
structure CreateLoggingLinkRequest where
  parent : String
  bucketId : String
  linkId : String
  loggingLink : Option LoggingLink
deriving DecidableEq

/-- The `pb.UpdateLoggingLinkRequest` fields used.  `updateMaskPaths` is
`req.GetUpdateMask().GetPaths()` (nil mask gives the empty list);
`loggingLink` is a pointer field. -/
structure UpdateLoggingLinkRequest where
  name : String
  updateMaskPaths : List String
  loggingLink : Option LoggingLink
deriving DecidableEq

/-- The `pb.CreateLinkRequest` fields used. -/
structure CreateLinkRequest where
  parent : String
  linkId : String
  link : Option Link
deriving DecidableEq

/-- The nil-safe getter chain `req.GetLoggingLink().GetDescription()`. -/
def getLoggingLinkDescription (o : Option LoggingLink) : String :=
  match o with
  | some l => l.description
  | none => ""

/-- Embedding of the field-mask loop of `UpdateLoggingLink` (lines 145-154):
each path is applied in order to the working copy; the first path other than
`description` aborts with `InvalidArgument` naming it. -/
def applyMaskPaths (req : UpdateLoggingLinkRequest) (updated : LoggingLink) :
    List String → Except StatusError LoggingLink
  | [] => Except.ok updated
  | path :: rest =>
    if path = "description" then
      applyMaskPaths req { updated with description := getLoggingLinkDescription req.loggingLink } rest
    else
      Except.error (StatusError.invalidArgument ("update_mask path \"" ++ path ++ "\" not valid"))

/-- Embedding of `(*configService).GetLoggingLink`.  A storage `NotFound`
is rewrapped with a message naming the bucket. -/
def GetLoggingLink (svc : MockService) (st : MockState) (req : GetLoggingLinkRequest) :
    MockState × RpcResult LoggingLink :=
  match parseLoggingLinkName svc req.name with
  | RpcResult.err e => (st, RpcResult.err e)
  | RpcResult.panics => (st, RpcResult.panics)
  | RpcResult.ok nm =>
    let st1 := createLinkDefaultObjects st nm
    match loggingLinkNameString nm with
    | none => (st1, RpcResult.panics)
    | some fqn =>
      match storageGet st1.loggingLinks fqn with
      | Except.error (StatusError.notFound _) =>
        (st1, RpcResult.err (StatusError.notFound
          ("Bucket `" ++ nm.BucketName ++ "` does not exist")))
      | Except.error e => (st1, RpcResult.err e)
      | Except.ok obj => (st1, RpcResult.ok obj)

/-- Embedding of `(*configService).CreateLoggingLink`.  The source clones
`req.GetLoggingLink()` and then writes through the resulting pointer, which
panics when the request carries no body. -/
def CreateLoggingLink (svc : MockService) (st : MockState) (req : CreateLoggingLinkRequest)
    (now : Timestamp) : MockState × RpcResult LoggingLink :=
  let reqName := req.parent ++ "/buckets/" ++ req.bucketId ++ "/links/" ++ req.linkId
  match parseLoggingLinkName svc reqName with
  | RpcResult.err e => (st, RpcResult.err e)
  | RpcResult.panics => (st, RpcResult.panics)
  | RpcResult.ok nm =>
    let st1 := createLinkDefaultObjects st nm
    match loggingLinkNameString nm with
    | none => (st1, RpcResult.panics)
    | some fqn =>
      match req.loggingLink with
      | none => (st1, RpcResult.panics)
      | some body =>
        let obj := { body with
          name := fqn
          createTime := some now
          updateTime := some now }
        let obj := populateDefaultsForLogBucket obj
        match storageCreate st1.loggingLinks fqn obj with
        | Except.error e => (st1, RpcResult.err e)
        | Except.ok links2 => ({ st1 with loggingLinks := links2 }, RpcResult.ok obj)

/-- Embedding of `(*configService).UpdateLoggingLink`.  Source line 134
writes `proto.Clone(existing).(*pb.LogBucket)`; that assertion cannot match
the function's `*pb.LoggingLink` result type, so the working copy is
embedded as the `LoggingLink` record the rest of the function requires.
The `createTime` reassignment mirrors line 135 of the source. -/
def UpdateLoggingLink (svc : MockService) (st : MockState) (req : UpdateLoggingLinkRequest)
    (now : Timestamp) : MockState × RpcResult LoggingLink :=
  match parseLoggingLinkName svc req.name with
  | RpcResult.err e => (st, RpcResult.err e)
  | RpcResult.panics => (st, RpcResult.panics)
  | RpcResult.ok nm =>
    let st1 := createLinkDefaultObjects st nm
    match loggingLinkNameString nm with
    | none => (st1, RpcResult.panics)
    | some fqn =>
      match storageGet st1.loggingLinks fqn with
      | Except.error e => (st1, RpcResult.err e)
      | Except.ok existing =>
        let updated := { existing with
          createTime := existing.createTime
          updateTime := some now }
        if req.updateMaskPaths = [] then
          (st1, RpcResult.err (StatusError.invalidArgument "update_mask is required"))
        else
          match applyMaskPaths req updated req.updateMaskPaths with
          | Except.error e => (st1, RpcResult.err e)
          | Except.ok updated2 =>
            let updated3 := populateDefaultsForLoggingLink updated2
            match storageUpdate st1.loggingLinks fqn updated3 with
            | Except.error e => (st1, RpcResult.err e)
            | Except.ok links2 => ({ st1 with loggingLinks := links2 }, RpcResult.ok updated3)

/-- Embedding of `(*linkService).CreateLink`.  The calls to
`createLinkDefaultObjects` and `populateDefaultsForLogBucket` are commented
out in the source, and `pb.Link` has no update-time field, so only the name
and the creation time are stamped. -/
def CreateLink (svc : MockService) (st : MockState) (req : CreateLinkRequest)
    (now : Timestamp) : MockState × RpcResult Link :=
  let reqName := req.parent ++ "/links/" ++ req.linkId
  match parseLoggingLinkName svc reqName with
  | RpcResult.err e => (st, RpcResult.err e)
  | RpcResult.panics => (st, RpcResult.panics)
  | RpcResult.ok nm =>
    match loggingLinkNameString nm with
    | none => (st, RpcResult.panics)
    | some fqn =>
      match req.link with
      | none => (st, RpcResult.panics)
      | some body =>
        let obj := { body with
          name := fqn
          createTime := some now }
        match storageCreate st.links fqn obj with
        | Except.error e => (st, RpcResult.err e)
        | Except.ok links2 => ({ st with links := links2 }, RpcResult.ok obj)

/-- The `krm.BigQueryDataset` domain object (`DatasetID` is a string
pointer). -/
structure BigQueryDatasetKrm where
  datasetID : Option String
deriving DecidableEq

/-- Modelled from the spec: `direct.StringTimestamp_FromProto` renders a
proto timestamp as an ISO-8601 string and `direct.StringTimestamp_ToProto`
parses it back; the spec requires the pair to round-trip losslessly, so the
domain-side string is modelled by its parsed content. -/
structure TimestampString where
  seconds : Int
  nanos : Int
deriving DecidableEq

/-- Modelled from the spec: domain-side rendering of a proto timestamp
(nil maps to nil). -/
def StringTimestamp_FromProto (t : Option Timestamp) : Option TimestampString :=
  t.map (fun v => { seconds := v.seconds, nanos := v.nanos })

/-- Modelled from the spec: parsing the domain-side timestamp string back
to a proto timestamp (nil maps to nil). -/
def StringTimestamp_ToProto (t : Option TimestampString) : Option Timestamp :=
  t.map (fun v => { seconds := v.seconds, nanos := v.nanos })

/-- The proto name of each lifecycle state value. -/
def lifecycleStateEnumName : LifecycleState → String
  | LifecycleState.unspecified => "LIFECYCLE_STATE_UNSPECIFIED"
  | LifecycleState.active => "ACTIVE"
  | LifecycleState.deleteRequested => "DELETE_REQUESTED"

/-- Modelled from the spec: `direct.Enum_FromProto` is the
default-value-aware enum-to-name accessor (the zero value maps to an
absent domain field). -/
def Enum_FromProto (v : LifecycleState) : Option String :=
  if v = LifecycleState.unspecified then none else some (lifecycleStateEnumName v)

/-- Modelled from the spec: `direct.Enum_ToProto` parses the domain-side
enum name back to the wire enum (absent or unknown names map to the zero
value). -/
def Enum_ToProto (o : Option String) : LifecycleState :=
  match o with
  | none => LifecycleState.unspecified
  | some s =>
    if s = "ACTIVE" then LifecycleState.active
    else if s = "DELETE_REQUESTED" then LifecycleState.deleteRequested
    else LifecycleState.unspecified

/-- Modelled from the spec: `direct.LazyPtr` — a pointer to the value,
nil when the value is the zero value. -/
def LazyPtr (s : String) : Option String :=
  if s = "" then none else some s

/-- Modelled from the spec: `direct.ValueOf` — dereference, with the zero
value for nil. -/
def ValueOf (o : Option String) : String :=
  o.getD ""

/-- The `krm.LoggingLinkSpec` domain object: the fields the mapper touches
(`Name`, `Description`, `CreateTime`, `LifecycleState`,
`BigqueryDataset`). -/
structure LoggingLinkSpec where
  name : Option String
  description : Option String
  createTime : Option TimestampString
  lifecycleState : Option String
  bigqueryDataset : Option BigQueryDatasetKrm
deriving DecidableEq

/-- Embedding of `BigQueryDataset_FromProto`. -/
def BigQueryDataset_FromProto (i : Option BigQueryDatasetPb) : Option BigQueryDatasetKrm :=
  match i with
  | none => none
  | some d => some { datasetID := LazyPtr d.datasetId }

/-- Embedding of `BigQueryDataset_ToProto`. -/
def BigQueryDataset_ToProto (i : Option BigQueryDatasetKrm) : Option BigQueryDatasetPb :=
  match i with
  | none => none
  | some d => some { datasetId := ValueOf d.datasetID }

/-- Embedding of `LoggingLinkSpec_FromProto`. -/
def LoggingLinkSpec_FromProto (i : Option Link) : Option LoggingLinkSpec :=
  match i with
  | none => none
  | some x =>
    some
      { name := LazyPtr x.name
        description := LazyPtr x.description
        createTime := StringTimestamp_FromProto x.createTime
        lifecycleState := Enum_FromProto x.lifecycleState
        bigqueryDataset := BigQueryDataset_FromProto x.bigqueryDataset }

/-- Embedding of `LoggingLinkSpec_ToProto`. -/
def LoggingLinkSpec_ToProto (i : Option LoggingLinkSpec) : Option Link :=
  match i with
  | none => none
  | some x =>
    some
      { name := ValueOf x.name
        description := ValueOf x.description
        createTime := StringTimestamp_ToProto x.createTime
        lifecycleState := Enum_ToProto x.lifecycleState
        bigqueryDataset := BigQueryDataset_ToProto x.bigqueryDataset }

/-- A service whose project resolver knows no project at all. -/
def svcEmpty : MockService := { projects := [] }

/-- A service whose resolver knows the single project `p1`. -/
def svcP1 : MockService := { projects := [("p1", { id := "p1", number := 1 })] }

/-- Number of populated parent-kind fields of an identity (`project` is
populated when the pointer is non-nil, the string kinds when non-empty). -/
def parentKindCount (n : loggingLinkName) : Nat :=
  (if n.project.isSome then 1 else 0) + (if n.folder ≠ "" then 1 else 0) +
    (if n.organization ≠ "" then 1 else 0) + (if n.billingAccount ≠ "" then 1 else 0)

/-- An identity whose only populated parent kind is an organization. -/
def orgIdentity : loggingLinkName :=
  { project := none
    folder := ""
    organization := "org1"
    billingAccount := ""
    location := "global"
    BucketName := "b"
    LinkName := "l" }

/-- C1: the claim says all four documented path shapes are accepted, in
particular the organizations and billingAccounts shapes; the code rejects
both 8-token shapes with `InvalidArgument`, because their branches guard on
a token count of 6 (and would read past the end of a 6-token list). -/
theorem parse_rejects_organizations_and_billingAccounts_shapes :
    parseLoggingLinkName svcEmpty "organizations/org1/locations/global/buckets/b/links/l" =
      RpcResult.err (StatusError.invalidArgument
        "name \"organizations/org1/locations/global/buckets/b/links/l\" is not valid") ∧
    parseLoggingLinkName svcEmpty "billingAccounts/ba1/locations/global/buckets/b/links/l" =
      RpcResult.err (StatusError.invalidArgument
        "name \"billingAccounts/ba1/locations/global/buckets/b/links/l\" is not valid") ∧
    parseLoggingLinkName svcEmpty "organizations/org1/locations/global/buckets/b" =
      RpcResult.panics := by
  decide

/-- C2: the claim says `Parse(Render(identity))` reconstructs the identity
for each of the four parent-kind variants; for the organization variant the
rendered path is rejected by the parser with `InvalidArgument`. -/
theorem render_then_parse_fails_on_organization_variant :
    loggingLinkNameString orgIdentity =
      some "organizations/org1/locations/global/buckets/b/links/l" ∧
    parseLoggingLinkName svcEmpty "organizations/org1/locations/global/buckets/b/links/l" =
      RpcResult.err (StatusError.invalidArgument
        "name \"organizations/org1/locations/global/buckets/b/links/l\" is not valid") := by
  decide

/-- C9 counterexample: a successful parse need not populate any parent-kind
field — the folders shape accepts an empty id token, producing an identity
with zero parent kinds set. -/
theorem parse_ok_with_zero_parent_kinds :
    parseLoggingLinkName svcEmpty "folders//locations/l/buckets/b/links/k" =
      RpcResult.ok
        { project := none
          folder := ""
          organization := ""
          billingAccount := ""
          location := "l"
          BucketName := "b"
          LinkName := "k" } ∧
    parentKindCount
        { project := none
          folder := ""
          organization := ""
          billingAccount := ""
          location := "l"
          BucketName := "b"
          LinkName := "k" } = 0 := by
  decide

/-- C9 (amended): every identity returned by a successful parse has at most
one parent-kind field populated (zero is possible exactly when the folders
shape carries an empty id token). -/
theorem parse_ok_at_most_one_parent_kind (svc : MockService) (s : String)
    (n : loggingLinkName) (h : parseLoggingLinkName svc s = RpcResult.ok n) :
    parentKindCount n ≤ 1 := by
  simp only [parseLoggingLinkName] at h
  split_ifs at h
  · revert h
    cases GetProjectByID svc ((goSplit s).getD 1 "") with
    | error e => intro h; cases h
    | ok project =>
      intro h
      cases h
      simp [parentKindCount]
  · cases h
    simp [parentKindCount]
    split <;> simp

/-- Witness for the amended C9 theorem at a concrete successful parse. -/
theorem parse_ok_at_most_one_parent_kind_witness :
    parentKindCount
        { project := some { id := "p1", number := 1 }
          folder := ""
          organization := ""
          billingAccount := ""
          location := "global"
          BucketName := "b"
          LinkName := "l" } ≤ 1 :=
  parse_ok_at_most_one_parent_kind svcP1 "projects/p1/locations/global/buckets/b/links/l" _
    (by decide)

/-- C10: rendering is partial exactly as claimed — `String()` hits the nil
`project` dereference (modelled as `none`) precisely when the organization,
folder and billingAccount fields are all empty and the project pointer is
nil; under the precondition that some parent kind is populated it is
total. -/
theorem stringRender_none_iff_no_parent_kind (n : loggingLinkName) :
    loggingLinkNameString n = none ↔
      n.organization = "" ∧ n.folder = "" ∧ n.billingAccount = "" ∧ n.project = none := by
  unfold loggingLinkNameString
  split_ifs with h1 h2 h3 <;> try simp_all
  cases hp : n.project <;> simp_all

/-- The empty storage state. -/
def stEmpty : MockState := { logBuckets := [], loggingLinks := [], links := [] }

/-- C8: on a projects-shaped path, a failure of the project resolver is
returned unchanged by the parser, and hence by a handler calling it (shown
for `GetLoggingLink`, which returns the parse error before touching
storage). -/
theorem parse_propagates_resolver_error (svc : MockService) (st : MockState)
    (s id loc b l : String) (e : StatusError)
    (hs : goSplit s = ["projects", id, "locations", loc, "buckets", b, "links", l])
    (he : GetProjectByID svc id = Except.error e) :
    parseLoggingLinkName svc s = RpcResult.err e ∧
    GetLoggingLink svc st { name := s } = (st, RpcResult.err e) := by
  have hp : parseLoggingLinkName svc s = RpcResult.err e := by
    simp only [parseLoggingLinkName, hs]
    simp [he]
  exact ⟨hp, by simp [GetLoggingLink, hp]⟩

/-- Witness for the C8 theorem: the resolver of `svcEmpty` has no record
for `unknown-proj`, and its NotFound error comes back verbatim. -/
theorem parse_propagates_resolver_error_witness :
    parseLoggingLinkName svcEmpty "projects/unknown-proj/locations/global/buckets/b/links/l" =
      RpcResult.err (StatusError.notFound "project \"unknown-proj\" not found") ∧
    GetLoggingLink svcEmpty stEmpty
        { name := "projects/unknown-proj/locations/global/buckets/b/links/l" } =
      (stEmpty, RpcResult.err (StatusError.notFound "project \"unknown-proj\" not found")) :=
  parse_propagates_resolver_error svcEmpty stEmpty
    "projects/unknown-proj/locations/global/buckets/b/links/l" "unknown-proj" "global" "b" "l"
    (StatusError.notFound "project \"unknown-proj\" not found") (by decide) (by rfl)

/-- The default-object step only touches the bucket store. -/
theorem createLinkDefaultObjects_loggingLinks (st : MockState) (nm : loggingLinkName) :
    (createLinkDefaultObjects st nm).loggingLinks = st.loggingLinks := by
  unfold createLinkDefaultObjects createBucketIfNotExists
  dsimp only
  split <;> rfl

/-- Lookup at the head of an association list. -/
theorem storeLookup_cons_self {α : Type} (m : List (String × α)) (k : String) (v : α) :
    storeLookup ((k, v) :: m) k = some v := by
  simp [storeLookup]

/-- Lifecycle defaulting keeps the name. -/
theorem populateDefaults_name (x : LoggingLink) :
    (populateDefaultsForLoggingLink x).name = x.name := by
  unfold populateDefaultsForLoggingLink
  split <;> rfl

/-- Lifecycle defaulting keeps the description. -/
theorem populateDefaults_description (x : LoggingLink) :
    (populateDefaultsForLoggingLink x).description = x.description := by
  unfold populateDefaultsForLoggingLink
  split <;> rfl

/-- Lifecycle defaulting keeps the creation time. -/
theorem populateDefaults_createTime (x : LoggingLink) :
    (populateDefaultsForLoggingLink x).createTime = x.createTime := by
  unfold populateDefaultsForLoggingLink
  split <;> rfl

/-- Lifecycle defaulting keeps the update time. -/
theorem populateDefaults_updateTime (x : LoggingLink) :
    (populateDefaultsForLoggingLink x).updateTime = x.updateTime := by
  unfold populateDefaultsForLoggingLink
  split <;> rfl

/-- A mask whose every path is `description` is applied without error. -/
theorem applyMaskPaths_ok_of_all_description (req : UpdateLoggingLinkRequest)
    (paths : List String) (hall : ∀ p ∈ paths, p = "description") (u : LoggingLink) :
    ∃ v, applyMaskPaths req u paths = Except.ok v := by
  induction paths generalizing u with
  | nil => exact ⟨u, rfl⟩
  | cons p rest ih =>
    have hp : p = "description" := hall p (by simp)
    subst hp
    simp only [applyMaskPaths, if_pos rfl]
    exact ih (fun q hq => hall q (by simp [hq])) _

/-- A mask containing a path other than `description` aborts with an
`InvalidArgument` naming an offending path of the mask. -/
theorem applyMaskPaths_error_of_bad (req : UpdateLoggingLinkRequest)
    (paths : List String) (hbad : ∃ p ∈ paths, p ≠ "description") (u : LoggingLink) :
    ∃ bad, bad ∈ paths ∧ bad ≠ "description" ∧
      applyMaskPaths req u paths =
        Except.error (StatusError.invalidArgument
          ("update_mask path \"" ++ bad ++ "\" not valid")) := by
  induction paths generalizing u with
  | nil =>
    rcases hbad with ⟨p, hp, _⟩
    cases hp
  | cons p rest ih =>
    by_cases hp : p = "description"
    · subst hp
      have hbad' : ∃ q ∈ rest, q ≠ "description" := by
        rcases hbad with ⟨q, hq, hqd⟩
        rcases List.mem_cons.mp hq with h1 | h2
        · exact absurd h1 hqd
        · exact ⟨q, h2, hqd⟩
      rcases ih hbad' { u with description := getLoggingLinkDescription req.loggingLink } with
        ⟨bad, hmem, hb, heq⟩
      refine ⟨bad, List.mem_cons_of_mem _ hmem, hb, ?_⟩
      simp only [applyMaskPaths, if_pos rfl]
      exact heq
    · exact ⟨p, List.mem_cons_self _ _, hp, by simp [applyMaskPaths, hp]⟩

/-- Common unfolding of `UpdateLoggingLink` once the name parses, renders
and the record is found in storage. -/
theorem UpdateLoggingLink_unfold (svc : MockService) (st : MockState)
    (req : UpdateLoggingLinkRequest) (now : Timestamp) (nm : loggingLinkName)
    (fqn : String) (existing : LoggingLink)
    (hparse : parseLoggingLinkName svc req.name = RpcResult.ok nm)
    (hfqn : loggingLinkNameString nm = some fqn)
    (hget : storeLookup st.loggingLinks fqn = some existing) :
    UpdateLoggingLink svc st req now =
      (if req.updateMaskPaths = [] then
        (createLinkDefaultObjects st nm,
          RpcResult.err (StatusError.invalidArgument "update_mask is required"))
      else
        match applyMaskPaths req
            { existing with createTime := existing.createTime, updateTime := some now }
            req.updateMaskPaths with
        | Except.error e => (createLinkDefaultObjects st nm, RpcResult.err e)
        | Except.ok u2 =>
          ({ createLinkDefaultObjects st nm with
              loggingLinks := (fqn, populateDefaultsForLoggingLink u2) :: st.loggingLinks },
            RpcResult.ok (populateDefaultsForLoggingLink u2))) := by
  have hlinks := createLinkDefaultObjects_loggingLinks st nm
  unfold UpdateLoggingLink
  rw [hparse]
  dsimp only
  rw [hfqn]
  dsimp only
  rw [show storageGet (createLinkDefaultObjects st nm).loggingLinks fqn = Except.ok existing by
    rw [hlinks]; simp [storageGet, hget]]
  dsimp only
  split_ifs with hmask
  · rfl
  · cases happly : applyMaskPaths req
      { existing with createTime := existing.createTime, updateTime := some now }
      req.updateMaskPaths with
    | error e => rfl
    | ok u2 =>
      dsimp only
      rw [show storageUpdate (createLinkDefaultObjects st nm).loggingLinks fqn
          (populateDefaultsForLoggingLink u2) =
          Except.ok ((fqn, populateDefaultsForLoggingLink u2) :: st.loggingLinks) by
        rw [hlinks]; simp [storageUpdate, hget]]

/-- The fully-qualified name used by the concrete update fixtures. -/
def fqn0 : String := "projects/p1/locations/global/buckets/b/links/l"

/-- The identity `fqn0` parses to under `svcP1`. -/
def nm0 : loggingLinkName :=
  { project := some { id := "p1", number := 1 }
    folder := ""
    organization := ""
    billingAccount := ""
    location := "global"
    BucketName := "b"
    LinkName := "l" }

/-- A stored record whose lifecycle state is unspecified. -/
def ex0 : LoggingLink :=
  { name := fqn0
    description := "old"
    createTime := some { seconds := 1, nanos := 2 }
    updateTime := some { seconds := 1, nanos := 2 }
    lifecycleState := LifecycleState.unspecified }

/-- A state holding exactly the record `ex0` under `fqn0`. -/
def st0 : MockState :=
  { logBuckets := [], loggingLinks := [(fqn0, ex0)], links := [] }

/-- The server clock used by the concrete fixtures. -/
def now0 : Timestamp := { seconds := 100, nanos := 0 }

/-- An update request with mask `["description"]` and description `new`. -/
def req0 : UpdateLoggingLinkRequest :=
  { name := fqn0
    updateMaskPaths := ["description"]
    loggingLink := some
      { name := ""
        description := "new"
        createTime := none
        updateTime := none
        lifecycleState := LifecycleState.unspecified } }

/-- An update request with an empty mask. -/
def reqEmptyMask : UpdateLoggingLinkRequest :=
  { name := fqn0, updateMaskPaths := [], loggingLink := none }

/-- An update request whose mask has a recognized path followed by an
unrecognized one. -/
def reqBadMask : UpdateLoggingLinkRequest :=
  { name := fqn0
    updateMaskPaths := ["description", "labels"]
    loggingLink := some
      { name := ""
        description := "new"
        createTime := none
        updateTime := none
        lifecycleState := LifecycleState.unspecified } }

/-- C3 counterexample: updating a stored record whose lifecycle state is
unspecified with mask `["description"]` also flips its lifecycle state to
`ACTIVE` (the update path re-runs lifecycle defaulting), so not all fields
other than description, create time and update time are preserved. -/
theorem update_changes_lifecycle_of_unspecified_record :
    storeLookup st0.loggingLinks fqn0 = some ex0 ∧
    ex0.lifecycleState = LifecycleState.unspecified ∧
    req0.updateMaskPaths = ["description"] ∧
    (UpdateLoggingLink svcP1 st0 req0 now0).2 =
      RpcResult.ok
        { name := fqn0
          description := "new"
          createTime := some { seconds := 1, nanos := 2 }
          updateTime := some { seconds := 100, nanos := 0 }
          lifecycleState := LifecycleState.active } ∧
    storeLookup (UpdateLoggingLink svcP1 st0 req0 now0).1.loggingLinks fqn0 =
      some
        { name := fqn0
          description := "new"
          createTime := some { seconds := 1, nanos := 2 }
          updateTime := some { seconds := 100, nanos := 0 }
          lifecycleState := LifecycleState.active } ∧
    LifecycleState.active ≠ ex0.lifecycleState := by
  decide

/-- C3 (amended): an update whose mask is exactly `["description"]` returns
and persists a record carrying the request's description, the original
creation time, the server time as update time, the original name, and the
original lifecycle state after defaulting (ACTIVE when the original was
unspecified, unchanged otherwise). -/
theorem update_description_mask_effects (svc : MockService) (st : MockState)
    (req : UpdateLoggingLinkRequest) (now : Timestamp) (nm : loggingLinkName)
    (fqn : String) (existing : LoggingLink)
    (hmask : req.updateMaskPaths = ["description"])
    (hparse : parseLoggingLinkName svc req.name = RpcResult.ok nm)
    (hfqn : loggingLinkNameString nm = some fqn)
    (hget : storeLookup st.loggingLinks fqn = some existing) :
    ∃ u, (UpdateLoggingLink svc st req now).2 = RpcResult.ok u ∧
      storeLookup (UpdateLoggingLink svc st req now).1.loggingLinks fqn = some u ∧
      u.description = getLoggingLinkDescription req.loggingLink ∧
      u.createTime = existing.createTime ∧
      u.updateTime = some now ∧
      u.name = existing.name ∧
      u.lifecycleState = (populateDefaultsForLoggingLink existing).lifecycleState := by
  rw [UpdateLoggingLink_unfold svc st req now nm fqn existing hparse hfqn hget, hmask]
  have happ : applyMaskPaths req
      { existing with createTime := existing.createTime, updateTime := some now }
      ["description"] =
      Except.ok { existing with
        description := getLoggingLinkDescription req.loggingLink
        createTime := existing.createTime
        updateTime := some now } := by
    simp [applyMaskPaths]
  rw [if_neg (by simp), happ]
  refine ⟨populateDefaultsForLoggingLink
    { existing with
        description := getLoggingLinkDescription req.loggingLink
        createTime := existing.createTime
        updateTime := some now }, rfl, storeLookup_cons_self _ _ _, ?_, ?_, ?_, ?_, ?_⟩
  · rw [populateDefaults_description]
  · rw [populateDefaults_createTime]
  · rw [populateDefaults_updateTime]
  · rw [populateDefaults_name]
  · by_cases hls : existing.lifecycleState = LifecycleState.unspecified <;>
      simp [populateDefaultsForLoggingLink, hls]

/-- Witness for the amended C3 theorem at the concrete fixtures. -/
theorem update_description_mask_effects_witness :
    ∃ u, (UpdateLoggingLink svcP1 st0 req0 now0).2 = RpcResult.ok u ∧
      storeLookup (UpdateLoggingLink svcP1 st0 req0 now0).1.loggingLinks fqn0 = some u ∧
      u.description = getLoggingLinkDescription req0.loggingLink ∧
      u.createTime = ex0.createTime ∧
      u.updateTime = some now0 ∧
      u.name = ex0.name ∧
      u.lifecycleState = (populateDefaultsForLoggingLink ex0).lifecycleState :=
  update_description_mask_effects svcP1 st0 req0 now0 nm0 fqn0 ex0
    (by decide) (by decide) (by decide) (by decide)

/-- C5: `UpdateLoggingLink` rejects an empty mask with `InvalidArgument`
"update_mask is required", rejects any mask containing a path other than
`description` with an `InvalidArgument` naming an offending path, and gets
through mask processing whenever the mask is non-empty and every path is
recognized. -/
theorem update_mask_validation (svc : MockService) (st : MockState)
    (req : UpdateLoggingLinkRequest) (now : Timestamp) (nm : loggingLinkName)
    (fqn : String) (existing : LoggingLink)
    (hparse : parseLoggingLinkName svc req.name = RpcResult.ok nm)
    (hfqn : loggingLinkNameString nm = some fqn)
    (hget : storeLookup st.loggingLinks fqn = some existing) :
    (req.updateMaskPaths = [] →
      (UpdateLoggingLink svc st req now).2 =
        RpcResult.err (StatusError.invalidArgument "update_mask is required")) ∧
    ((∃ p ∈ req.updateMaskPaths, p ≠ "description") →
      ∃ bad, bad ∈ req.updateMaskPaths ∧ bad ≠ "description" ∧
        (UpdateLoggingLink svc st req now).2 =
          RpcResult.err (StatusError.invalidArgument
            ("update_mask path \"" ++ bad ++ "\" not valid"))) ∧
    (req.updateMaskPaths ≠ [] → (∀ p ∈ req.updateMaskPaths, p = "description") →
      ∃ u, (UpdateLoggingLink svc st req now).2 = RpcResult.ok u) := by
  rw [UpdateLoggingLink_unfold svc st req now nm fqn existing hparse hfqn hget]
  refine ⟨?_, ?_, ?_⟩
  · intro hempty
    rw [if_pos hempty]
  · intro hbad
    rcases applyMaskPaths_error_of_bad req req.updateMaskPaths hbad
      { existing with createTime := existing.createTime, updateTime := some now } with
      ⟨bad, hmem, hb, heq⟩
    have hne : req.updateMaskPaths ≠ [] := by
      intro h0
      rw [h0] at hmem
      cases hmem
    refine ⟨bad, hmem, hb, ?_⟩
    rw [if_neg hne, heq]
  · intro hne hall
    rcases applyMaskPaths_ok_of_all_description req req.updateMaskPaths hall
      { existing with createTime := existing.createTime, updateTime := some now } with ⟨v, hv⟩
    rw [if_neg hne, hv]
    exact ⟨populateDefaultsForLoggingLink v, rfl⟩

/-- Witness for the C5 theorem: its empty-mask conjunct applied to the
concrete fixtures. -/
theorem update_mask_validation_witness :
    (UpdateLoggingLink svcP1 st0 reqEmptyMask now0).2 =
      RpcResult.err (StatusError.invalidArgument "update_mask is required") :=
  (update_mask_validation svcP1 st0 reqEmptyMask now0 nm0 fqn0 ex0
    (by decide) (by decide) (by decide)).1 rfl

/-- C6: when the mask contains an unrecognized path (even after recognized
ones), the update fails with `InvalidArgument` and the link store — in
particular the record under `fqn` — is exactly what it was before the
call: the mutation happened on a discarded working copy. -/
theorem update_invalid_mask_is_atomic (svc : MockService) (st : MockState)
    (req : UpdateLoggingLinkRequest) (now : Timestamp) (nm : loggingLinkName)
    (fqn : String) (existing : LoggingLink)
    (hparse : parseLoggingLinkName svc req.name = RpcResult.ok nm)
    (hfqn : loggingLinkNameString nm = some fqn)
    (hget : storeLookup st.loggingLinks fqn = some existing)
    (hbad : ∃ p ∈ req.updateMaskPaths, p ≠ "description") :
    (UpdateLoggingLink svc st req now).1.loggingLinks = st.loggingLinks ∧
    storeLookup (UpdateLoggingLink svc st req now).1.loggingLinks fqn = some existing ∧
    ∃ msg, (UpdateLoggingLink svc st req now).2 =
      RpcResult.err (StatusError.invalidArgument msg) := by
  rw [UpdateLoggingLink_unfold svc st req now nm fqn existing hparse hfqn hget]
  rcases applyMaskPaths_error_of_bad req req.updateMaskPaths hbad
    { existing with createTime := existing.createTime, updateTime := some now } with
    ⟨bad, hmem, hb, heq⟩
  have hne : req.updateMaskPaths ≠ [] := by
    intro h0
    rw [h0] at hmem
    cases hmem
  rw [if_neg hne, heq]
  exact ⟨createLinkDefaultObjects_loggingLinks st nm,
    by rw [createLinkDefaultObjects_loggingLinks st nm]; exact hget, _, rfl⟩

/-- Witness for the C6 theorem at the concrete fixtures (mask
`["description", "labels"]`). -/
theorem update_invalid_mask_is_atomic_witness :
    (UpdateLoggingLink svcP1 st0 reqBadMask now0).1.loggingLinks = st0.loggingLinks ∧
    storeLookup (UpdateLoggingLink svcP1 st0 reqBadMask now0).1.loggingLinks fqn0 = some ex0 ∧
    ∃ msg, (UpdateLoggingLink svcP1 st0 reqBadMask now0).2 =
      RpcResult.err (StatusError.invalidArgument msg) :=
  update_invalid_mask_is_atomic svcP1 st0 reqBadMask now0 nm0 fqn0 ex0
    (by decide) (by decide) (by decide) (by decide)

/-- The LogBucket-defaulter keeps the name. -/
theorem populateLogBucket_name (x : LoggingLink) :
    (populateDefaultsForLogBucket x).name = x.name := by
  unfold populateDefaultsForLogBucket
  split <;> rfl

/-- The LogBucket-defaulter keeps the creation time. -/
theorem populateLogBucket_createTime (x : LoggingLink) :
    (populateDefaultsForLogBucket x).createTime = x.createTime := by
  unfold populateDefaultsForLogBucket
  split <;> rfl

/-- The LogBucket-defaulter keeps the update time. -/
theorem populateLogBucket_updateTime (x : LoggingLink) :
    (populateDefaultsForLogBucket x).updateTime = x.updateTime := by
  unfold populateDefaultsForLogBucket
  split <;> rfl

/-- The LogBucket-defaulter turns an unspecified lifecycle state into
ACTIVE. -/
theorem populateLogBucket_unspecified (x : LoggingLink)
    (h : x.lifecycleState = LifecycleState.unspecified) :
    (populateDefaultsForLogBucket x).lifecycleState = LifecycleState.active := by
  simp [populateDefaultsForLogBucket, h]

/-- The body of the concrete `CreateLink` fixture: unspecified lifecycle
state. -/
def linkBody0 : Link :=
  { name := ""
    description := "d"
    createTime := none
    lifecycleState := LifecycleState.unspecified
    bigqueryDataset := none }

/-- A concrete `CreateLink` request whose body has an unspecified
lifecycle state. -/
def reqL0 : CreateLinkRequest :=
  { parent := "projects/p1/locations/global/buckets/b"
    linkId := "l"
    link := some linkBody0 }

/-- C4 counterexample: `CreateLink` stores and returns a record created
with unspecified lifecycle state still unspecified — its defaulting call
is commented out in the source — contradicting the claim that both create
variants default it to ACTIVE. -/
theorem createLink_keeps_unspecified_lifecycle :
    (CreateLink svcP1 stEmpty reqL0 now0).2 =
      RpcResult.ok
        { name := fqn0
          description := "d"
          createTime := some { seconds := 100, nanos := 0 }
          lifecycleState := LifecycleState.unspecified
          bigqueryDataset := none } ∧
    storeLookup (CreateLink svcP1 stEmpty reqL0 now0).1.links fqn0 =
      some
        { name := fqn0
          description := "d"
          createTime := some { seconds := 100, nanos := 0 }
          lifecycleState := LifecycleState.unspecified
          bigqueryDataset := none } ∧
    LifecycleState.unspecified ≠ LifecycleState.active := by
  decide

/-- C4 (amended): both create variants stamp the synthesized full resource
path as the name and the server time as creation time; `CreateLoggingLink`
additionally sets the update time equal to the creation time and defaults
an unspecified lifecycle state to ACTIVE, while `CreateLink` persists the
body's lifecycle state unchanged. -/
theorem create_stamps_and_defaults :
    (∀ (svc : MockService) (st : MockState) (req : CreateLoggingLinkRequest) (now : Timestamp)
        (nm : loggingLinkName) (fqn : String) (body : LoggingLink),
      parseLoggingLinkName svc
          (req.parent ++ "/buckets/" ++ req.bucketId ++ "/links/" ++ req.linkId) =
        RpcResult.ok nm →
      loggingLinkNameString nm = some fqn →
      req.loggingLink = some body →
      storeLookup st.loggingLinks fqn = none →
      ∃ st2, CreateLoggingLink svc st req now =
          (st2, RpcResult.ok (populateDefaultsForLogBucket
            { body with name := fqn, createTime := some now, updateTime := some now })) ∧
        storeLookup st2.loggingLinks fqn =
          some (populateDefaultsForLogBucket
            { body with name := fqn, createTime := some now, updateTime := some now }) ∧
        (populateDefaultsForLogBucket
          { body with name := fqn, createTime := some now, updateTime := some now }).name = fqn ∧
        (populateDefaultsForLogBucket
          { body with name := fqn, createTime := some now, updateTime := some now }).createTime =
          some now ∧
        (populateDefaultsForLogBucket
          { body with name := fqn, createTime := some now, updateTime := some now }).updateTime =
          some now ∧
        (body.lifecycleState = LifecycleState.unspecified →
          (populateDefaultsForLogBucket
            { body with name := fqn, createTime := some now, updateTime := some now }).lifecycleState =
            LifecycleState.active)) ∧
    (∀ (svc : MockService) (st : MockState) (req : CreateLinkRequest) (now : Timestamp)
        (nm : loggingLinkName) (fqn : String) (body : Link),
      parseLoggingLinkName svc (req.parent ++ "/links/" ++ req.linkId) = RpcResult.ok nm →
      loggingLinkNameString nm = some fqn →
      req.link = some body →
      storeLookup st.links fqn = none →
      ∃ st2, CreateLink svc st req now =
          (st2, RpcResult.ok { body with name := fqn, createTime := some now }) ∧
        storeLookup st2.links fqn = some { body with name := fqn, createTime := some now } ∧
        ({ body with name := fqn, createTime := some now } : Link).lifecycleState =
          body.lifecycleState) := by
  constructor
  · intro svc st req now nm fqn body hparse hfqn hbody hfree
    simp only [CreateLoggingLink]
    rw [hparse]
    dsimp only
    rw [hfqn]
    dsimp only
    rw [hbody]
    dsimp only
    rw [show storageCreate (createLinkDefaultObjects st nm).loggingLinks fqn
        (populateDefaultsForLogBucket
          { body with name := fqn, createTime := some now, updateTime := some now }) =
        Except.ok ((fqn, populateDefaultsForLogBucket
          { body with name := fqn, createTime := some now, updateTime := some now })
            :: st.loggingLinks) by
      rw [createLinkDefaultObjects_loggingLinks]
      simp [storageCreate, hfree]]
    refine ⟨_, rfl, storeLookup_cons_self _ _ _, ?_, ?_, ?_, ?_⟩
    · rw [populateLogBucket_name]
    · rw [populateLogBucket_createTime]
    · rw [populateLogBucket_updateTime]
    · intro hls
      exact populateLogBucket_unspecified _ hls
  · intro svc st req now nm fqn body hparse hfqn hbody hfree
    simp only [CreateLink]
    rw [hparse]
    dsimp only
    rw [hfqn]
    dsimp only
    rw [hbody]
    dsimp only
    rw [show storageCreate st.links fqn { body with name := fqn, createTime := some now } =
        Except.ok ((fqn, { body with name := fqn, createTime := some now }) :: st.links) by
      simp [storageCreate, hfree]]
    exact ⟨_, rfl, storeLookup_cons_self _ _ _, trivial⟩

/-- Witness for the C4 amended theorem: its `CreateLink` part at the
concrete fixtures. -/
theorem create_stamps_and_defaults_witness :
    ∃ st2, CreateLink svcP1 stEmpty reqL0 now0 =
        (st2, RpcResult.ok { linkBody0 with name := fqn0, createTime := some now0 }) ∧
      storeLookup st2.links fqn0 =
        some { linkBody0 with name := fqn0, createTime := some now0 } ∧
      ({ linkBody0 with name := fqn0, createTime := some now0 } : Link).lifecycleState =
        linkBody0.lifecycleState :=
  create_stamps_and_defaults.2 svcP1 stEmpty reqL0 now0 nm0 fqn0 linkBody0
    (by decide) (by decide) (by decide) (by decide)

/-- The `direct.ValueOf` and `direct.LazyPtr` helpers are mutually inverse
on strings. -/
theorem valueOf_lazyPtr (s : String) : ValueOf (LazyPtr s) = s := by
  unfold ValueOf LazyPtr
  split_ifs with h
  · simp [h]
  · rfl

/-- The enum helpers round-trip on every lifecycle state value. -/
theorem enum_roundtrip (v : LifecycleState) : Enum_ToProto (Enum_FromProto v) = v := by
  cases v <;> rfl

/-- The timestamp helpers round-trip. -/
theorem stringTimestamp_roundtrip (t : Option Timestamp) :
    StringTimestamp_ToProto (StringTimestamp_FromProto t) = t := by
  cases t with
  | none => rfl
  | some v => cases v; rfl

/-- The BigQuery dataset sub-mapper round-trips. -/
theorem bigQueryDataset_roundtrip (i : Option BigQueryDatasetPb) :
    BigQueryDataset_ToProto (BigQueryDataset_FromProto i) = i := by
  cases i with
  | none => rfl
  | some d =>
    cases d with
    | mk ds => simp [BigQueryDataset_FromProto, BigQueryDataset_ToProto, valueOf_lazyPtr]

/-- C7: for every non-nil wire message, `ToProto` after `FromProto`
reproduces every field present in both schemas (name, description, create
time, lifecycle state, BigQuery dataset id); consequently the
domain-to-proto composition `ToProto` after `FromProto` after `ToProto`
agrees with `ToProto`. -/
theorem mapper_roundtrip :
    (∀ x : Link, LoggingLinkSpec_ToProto (LoggingLinkSpec_FromProto (some x)) = some x) ∧
    (∀ y : LoggingLinkSpec,
      LoggingLinkSpec_ToProto (LoggingLinkSpec_FromProto (LoggingLinkSpec_ToProto (some y))) =
        LoggingLinkSpec_ToProto (some y)) := by
  have h1 : ∀ x : Link, LoggingLinkSpec_ToProto (LoggingLinkSpec_FromProto (some x)) = some x := by
    intro x
    cases x with
    | mk w ds ct ls bq =>
      simp [LoggingLinkSpec_FromProto, LoggingLinkSpec_ToProto, valueOf_lazyPtr,
        enum_roundtrip, stringTimestamp_roundtrip, bigQueryDataset_roundtrip]
  refine ⟨h1, fun y => ?_⟩
  obtain ⟨L, hL⟩ : ∃ L, LoggingLinkSpec_ToProto (some y) = some L := ⟨_, rfl⟩
  rw [hL, h1 L]

end MockLogging
